import Mathlib

/-!
Verification of the authentication and authorization core of a Go
Clean-Architecture CRUD web service (users + password login issuing a
signed JWT session token).

The embedding translates, from the Go source:
  * the user domain entity (internal/domain/user): NewUser, SetPassword,
    CheckPassword, Validate, role validation;
  * the JWT service (internal/domain/auth): GenerateToken, ValidateToken;
  * the user use case (internal/usecase): CreateUser, AuthenticateUser,
    GetUserByEmail, ListUsers;
  * the HTTP middleware (internal/infrastructure/http/middleware):
    AuthMiddleware, RoleMiddleware;
  * the HTTP handlers (internal/infrastructure/http/handlers):
    Login, GetUserByEmail, mapErrorToHTTPStatus, and the JSON
    serialization of the user entity.

External collaborators are modelled by their contracts:
  * golang.org/x/crypto/bcrypt is modelled with an idealized injective
    key-derivation function (the hash value records cost, salt, and the
    derived key; the derived key is the password itself, which captures
    collision-freeness of the KDF);
  * HMAC-SHA256 signing from github.com/golang-jwt/jwt/v5 is modelled as
    an idealized unforgeable MAC (a signature is the pair of the secret
    and the signed payload);
  * the sql repository is modelled as an in-memory list of users, per the
    collaborator contract (FindAccountByEmail, ExistsByEmail, ...);
  * the wall clock (time.Now) is passed explicitly as a natural number.
-/

namespace GoApi

/-! ### Credential hashing: golang.org/x/crypto/bcrypt, modelled by contract -/

/-- Model of a well-formed bcrypt hash value. A real bcrypt hash string
embeds the cost and salt next to the derived key; the key derivation is
idealized as injective by storing the password itself as the key. -/
structure BcryptHash where
  cost : Nat
  salt : Nat
  key : String
deriving DecidableEq

/-- The Go field User.Password is a string. We model the string space as
the sum of well-formed bcrypt encodings and all remaining (malformed)
strings; a well-formed encoding always begins with a dollar-sign header,
so it is never the empty string. -/
inductive PasswordField where
  | hash (h : BcryptHash)
  | raw (s : String)
deriving DecidableEq

/-- bcrypt.DefaultCost in golang.org/x/crypto/bcrypt. -/
def bcryptDefaultCost : Nat := 10

/-- Model of bcrypt.GenerateFromPassword. The salt argument stands for
the random salt drawn inside the library. -/
def bcryptGenerateFromPassword (password : String) (cost : Nat) (salt : Nat) : PasswordField :=
  .hash { cost := cost, salt := salt, key := password }

/-- Error results of bcrypt.CompareHashAndPassword. -/
inductive BcryptError where
  | mismatchedHashAndPassword
  | invalidHash
deriving DecidableEq

/-- Model of bcrypt.CompareHashAndPassword: returns no error exactly when
the stored value parses as a bcrypt hash and the derived keys agree; a
malformed stored value yields a hash-format error, never a match. -/
def bcryptCompareHashAndPassword (hashedPassword : PasswordField) (password : String) :
    Option BcryptError :=
  match hashedPassword with
  | .raw _ => some .invalidHash
  | .hash h => if h.key == password then none else some .mismatchedHashAndPassword

/-! ### Domain entity: internal/domain/user/user.go -/

/-- Go: type Role string, with constants RoleAdmin, RoleUser, RoleGuest. -/
abbrev Role := String

/-- The user entity. Field order and JSON tags follow the Go struct:
id, email, password (tag "-", never serialized), name, role, is_active,
created_at, updated_at. Timestamps are modelled as naturals. -/
structure User where
  id : String
  email : String
  password : PasswordField
  name : String
  role : Role
  isActive : Bool
  createdAt : Nat
  updatedAt : Nat
deriving DecidableEq

/-- Go: isValidRole, a switch over the three role constants. -/
def isValidRole (role : Role) : Bool :=
  role == "admin" || role == "user" || role == "guest"

/-- Errors produced by the entity constructors (Go: errors.New values
created inside SetPassword and Validate). -/
inductive EntityError where
  | passwordEmpty
  | passwordTooShort
  | emailEmpty
  | nameEmpty
  | invalidRole
deriving DecidableEq

/-- Go: (u *User) SetPassword. Rejects the empty password and passwords
shorter than 6 bytes, then stores the bcrypt hash at DefaultCost. -/
def User.SetPassword (u : User) (password : String) (salt : Nat) : Except EntityError User :=
  if password == "" then .error .passwordEmpty
  else if password.utf8ByteSize < 6 then .error .passwordTooShort
  else .ok { u with password := bcryptGenerateFromPassword password bcryptDefaultCost salt }

/-- Go: (u *User) CheckPassword: bcrypt comparison, returning err == nil. -/
def User.CheckPassword (u : User) (password : String) : Bool :=
  bcryptCompareHashAndPassword u.password password == none

/-- Whether the modelled password string is the empty string (a
well-formed bcrypt encoding never is). -/
def PasswordField.isEmptyString : PasswordField → Bool
  | .raw s => s == ""
  | .hash _ => false

/-- Go: (u *User) Validate: non-empty email, name, password, valid role. -/
def User.Validate (u : User) : Except EntityError Unit :=
  if u.email == "" then .error .emailEmpty
  else if u.name == "" then .error .nameEmpty
  else if u.password.isEmptyString then .error .passwordEmpty
  else if !isValidRole u.role then .error .invalidRole
  else .ok ()

/-- Go: (u *User) IsActiveUser. -/
def User.IsActiveUser (u : User) : Bool := u.isActive

/-- Go: NewUser(email, password, name, role): builds the entity with
IsActive = true and both timestamps set to the current instant, then
runs SetPassword and Validate. The id is left zero-valued (assigned by
the repository on insert). -/
def NewUser (email password name : String) (role : Role) (now : Nat) (salt : Nat) :
    Except EntityError User := do
  let u : User :=
    { id := "", email := email, password := .raw "", name := name, role := role,
      isActive := true, createdAt := now, updatedAt := now }
  let u ← u.SetPassword password salt
  let _ ← u.Validate
  .ok u

/-! ### Token service: internal/domain/auth/jwt.go -/

/-- The JWT claims: subject id, email, role, plus the registered
expires-at, issued-at, not-before timestamps. -/
structure Claims where
  userID : String
  email : String
  role : String
  expiresAt : Nat
  issuedAt : Nat
  notBefore : Nat
deriving DecidableEq

/-- Idealized HMAC-SHA256 signature: an unforgeable MAC is modelled as
the pair of the signing secret and the signed payload. -/
structure Hs256Mac where
  secret : String
  payload : Claims
deriving DecidableEq

/-- Signing with the idealized MAC. -/
def hs256Sign (secret : String) (payload : Claims) : Hs256Mac :=
  { secret := secret, payload := payload }

/-- The space of token strings, modelled as the sum of well-formed signed
tokens (claims plus signature) and all remaining (malformed) strings. -/
inductive JwtToken where
  | signed (claims : Claims) (mac : Hs256Mac)
  | malformed (raw : String)
deriving DecidableEq

/-- Go: ErrInvalidToken and ErrExpiredToken, the two exported error
values of the auth package. -/
inductive JwtError where
  | invalidToken
  | expiredToken
deriving DecidableEq

/-- Go: (j *jwtService) GenerateToken: claims carry the subject fields,
ExpiresAt = now + expiresIn, IssuedAt = NotBefore = now, signed with
HS256 under the service secret. -/
def GenerateToken (secretKey : String) (expiresIn : Nat) (now : Nat)
    (userID email role : String) : JwtToken :=
  let claims : Claims :=
    { userID := userID, email := email, role := role,
      expiresAt := now + expiresIn, issuedAt := now, notBefore := now }
  .signed claims (hs256Sign secretKey claims)

/-- Go: (j *jwtService) ValidateToken via jwt.ParseWithClaims (jwt/v5):
the signature is verified first (any malformed token or signature
mismatch yields ErrInvalidToken); then the registered claims are
validated, an elapsed expiry mapping to ErrExpiredToken (checked by the
Go code with errors.Is before everything else) and a violated not-before
mapping to ErrInvalidToken. jwt/v5 treats a token as expired when the
current time is not before the expires-at instant. -/
def ValidateToken (secretKey : String) (tokenString : JwtToken) (now : Nat) :
    Except JwtError Claims :=
  match tokenString with
  | .malformed _ => .error .invalidToken
  | .signed claims mac =>
    if mac ≠ hs256Sign secretKey claims then .error .invalidToken
    else if claims.expiresAt ≤ now then .error .expiredToken
    else if now < claims.notBefore then .error .invalidToken
    else .ok claims

/-! ### Use case: internal/usecase/user_usecase.go -/

/-- The domain error values matched by the handlers with errors.Is
(ErrInvalidRole, ErrUserNotFound, ErrUserAlreadyExists,
ErrInvalidPassword, ErrUserDeactivated), plus wrapped errors produced
with fmt.Errorf, which match none of the domain values. -/
inductive UseCaseError where
  | invalidRole
  | userNotFound
  | userAlreadyExists
  | invalidPassword
  | userDeactivated
  | wrapped (e : EntityError)
deriving DecidableEq

/-- Repository contract FindAccountByEmail over the in-memory store. -/
def GetByEmail (repo : List User) (email : String) : Option User :=
  repo.find? (fun u => u.email == email)

/-- Repository contract ExistsByEmail over the in-memory store. -/
def ExistsByEmail (repo : List User) (email : String) : Bool :=
  repo.any (fun u => u.email == email)

/-- Go: AuthenticateUserOutput, the user together with the issued token. -/
structure AuthenticateUserOutput where
  user : User
  token : JwtToken
deriving DecidableEq

/-- Go: (uc *UserUseCase) AuthenticateUser: look up by email (not-found
becomes ErrInvalidPassword); reject a deactivated account before the
password comparison; compare the password; on success issue a token with
the account id, email, role. -/
def AuthenticateUser (repo : List User) (secretKey : String) (expiresIn : Nat) (now : Nat)
    (email password : String) : Except UseCaseError AuthenticateUserOutput :=
  match GetByEmail repo email with
  | none => .error .invalidPassword
  | some userEntity =>
    if !userEntity.IsActiveUser then .error .userDeactivated
    else if !userEntity.CheckPassword password then .error .invalidPassword
    else .ok { user := userEntity,
               token := GenerateToken secretKey expiresIn now
                          userEntity.id userEntity.email userEntity.role }

/-- Go: (uc *UserUseCase) CreateUser: reject an existing email, build the
entity with NewUser (whose errors come back wrapped by fmt.Errorf), and
persist it. Returns the updated store together with the created user. -/
def CreateUser (repo : List User) (now salt : Nat) (email password name : String)
    (role : Role) : Except UseCaseError (List User × User) :=
  if ExistsByEmail repo email then .error .userAlreadyExists
  else
    match NewUser email password name role now salt with
    | .error e => .error (.wrapped e)
    | .ok u => .ok (repo ++ [u], u)

/-- Go: (uc *UserUseCase) GetUserByEmail: repository lookup, with
not-found propagated as the domain error ErrUserNotFound. -/
def GetUserByEmailUC (repo : List User) (email : String) : Except UseCaseError User :=
  match GetByEmail repo email with
  | none => .error .userNotFound
  | some u => .ok u

/-- Go: (uc *UserUseCase) ListUsers: a non-positive limit defaults to 10,
a negative offset to 0; returns the requested page and the total count. -/
def ListUsersUC (repo : List User) (offset limit : Int) : List User × Nat :=
  let limit := if limit ≤ 0 then (10 : Int) else limit
  let offset := if offset < 0 then (0 : Int) else offset
  ((repo.drop offset.toNat).take limit.toNat, repo.length)

/-! ### JSON serialization (encoding/json over the tagged structs) -/

/-- Minimal JSON value model for the response bodies. -/
inductive Json where
  | str (s : String)
  | num (n : Nat)
  | bool (b : Bool)
  | obj (fields : List (String × Json))
  | arr (elems : List Json)

/-- Whether a JSON object carries a field with the given key. -/
def Json.hasField (j : Json) (key : String) : Bool :=
  match j with
  | .obj fields => fields.any (fun f => f.1 == key)
  | _ => false

/-- Serialization of the user entity per its struct tags: the password
field is tagged with a dash and is skipped by encoding/json; the other
fields appear in declaration order. Timestamps are abstracted to their
numeric instants. -/
def userToJson (u : User) : Json :=
  .obj [("id", .str u.id), ("email", .str u.email), ("name", .str u.name),
        ("role", .str u.role), ("is_active", .bool u.isActive),
        ("created_at", .num u.createdAt), ("updated_at", .num u.updatedAt)]

/-- Go: handlers.ErrorResponse with fields error and message. -/
def errorResponseJson (error message : String) : Json :=
  .obj [("error", .str error), ("message", .str message)]

/-! ### HTTP handlers: internal/infrastructure/http/handlers/user_handler.go -/

/-- Go: (h *UserHandler) mapErrorToHTTPStatus: errors.Is against the five
domain error values; wrapped errors fall through to 500. -/
def mapErrorToHTTPStatus : UseCaseError → Nat × String
  | .invalidRole => (400, "Invalid role")
  | .userNotFound => (404, "User not found")
  | .userAlreadyExists => (409, "User already exists")
  | .invalidPassword => (401, "Invalid password")
  | .userDeactivated => (401, "User account is deactivated")
  | .wrapped _ => (500, "Internal server error")

/-- Go: handlers.LoginRequest, the bound body of POST /auth/login. -/
structure LoginRequest where
  email : String
  password : String

/-- Go: (h *UserHandler) Login, after a successful body bind: run the
AuthenticateUser use case; on error answer with the mapped status and an
ErrorResponse titled "Authentication failed"; on success answer 200 with
the serialized user entity (c.JSON(http.StatusOK, output.User)). -/
def Login (repo : List User) (secretKey : String) (expiresIn now : Nat)
    (req : LoginRequest) : Nat × Json :=
  match AuthenticateUser repo secretKey expiresIn now req.email req.password with
  | .error err =>
    let sm := mapErrorToHTTPStatus err
    (sm.1, errorResponseJson "Authentication failed" sm.2)
  | .ok output => (200, userToJson output.user)

/-- Go: (h *UserHandler) GetUserByEmail: reject a missing email query
parameter with 400, map use-case errors, otherwise 200 with the
serialized user. -/
def GetUserByEmailHandler (repo : List User) (email : String) : Nat × Json :=
  if email == "" then
    (400, errorResponseJson "Invalid email" "Email is required")
  else
    match GetUserByEmailUC repo email with
    | .error err =>
      let sm := mapErrorToHTTPStatus err
      (sm.1, errorResponseJson "Failed to get user" sm.2)
    | .ok u => (200, userToJson u)

/-- Go: the 200 body of (h *UserHandler) ListUsers: the ListUsersOutput
struct with fields users and total. -/
def listUsersBody (users : List User) (total : Nat) : Json :=
  .obj [("users", .arr (users.map userToJson)), ("total", .num total)]

/-! ### Middleware: internal/infrastructure/http/middleware/auth.go -/

/-- Structural embedding of strings.Split for a one-character separator:
one piece per separator occurrence, empty pieces preserved. -/
def splitRunAux (sep : Char) : List Char → List Char → List String
  | [], acc => [String.mk acc.reverse]
  | c :: cs, acc =>
    if c = sep then String.mk acc.reverse :: splitRunAux sep cs []
    else splitRunAux sep cs (c :: acc)

/-- Go: strings.Split(s, sep) for a single-character separator. -/
def stringsSplit (s : String) (sep : Char) : List String :=
  splitRunAux sep s.data []

/-- Terminal outcome of the auth middleware for one request: either an
aborted JSON rejection (status, error, message) or continuation to the
downstream handler with the identity context set from the claims. -/
inductive MWOutcome where
  | reject (status : Nat) (error message : String)
  | allow (userID email role : String)
deriving DecidableEq

/-- Go: middleware.AuthMiddleware: an empty Authorization header is
rejected first; then the header must split on spaces into exactly
["Bearer", token]; the token is validated through the injected
JWTService (here the validation function in the service interface), an
expired-token error selecting the "Token expired" message and every
other validation error the "Invalid token" message; on success the
claims populate the identity context and the request continues. -/
def AuthMiddleware (validate : String → Except JwtError Claims)
    (authHeader : String) : MWOutcome :=
  if authHeader == "" then
    .reject 401 "Authorization header required" "Token not provided"
  else
    match stringsSplit authHeader ' ' with
    | [scheme, tokenString] =>
      if scheme ≠ "Bearer" then
        .reject 401 "Invalid authorization header format" "Expected format: Bearer <token>"
      else
        match validate tokenString with
        | .error e =>
          .reject 401 "Authentication failed"
            (if e = .expiredToken then "Token expired" else "Invalid token")
        | .ok claims => .allow claims.userID claims.email claims.role
    | _ => .reject 401 "Invalid authorization header format" "Expected format: Bearer <token>"

/-- Terminal outcome of the role middleware: an aborted JSON rejection or
continuation to the next handler. -/
inductive RoleOutcome where
  | reject (status : Nat) (error message : String)
  | next
deriving DecidableEq

/-- Go: middleware.RoleMiddleware(requiredRoles...): a missing userRole
context value is rejected 401; otherwise the role must equal one of the
required roles, else 403. -/
def RoleMiddleware (requiredRoles : List String) (userRole : Option String) : RoleOutcome :=
  match userRole with
  | none => .reject 401 "User role not found" "Authentication required"
  | some role =>
    if requiredRoles.contains role then .next
    else .reject 403 "Insufficient permissions"
           "You don\x27t have permission to access this resource"

/-- Replace only the stored password hash of a user. -/
def withPassword (u : User) (p : PasswordField) : User :=
  { u with password := p }

/-! ### Theorems about the embedded program -/

/-- C2: for every account id, email, role and every ttl > 0, validating a
token immediately after it is issued (same secret, clock unchanged)
succeeds and returns claims whose subject id, email and role equal the
ones passed to issuance. -/
theorem validate_after_issue (secretKey : String) (expiresIn now : Nat)
    (userID email role : String) (h : 0 < expiresIn) :
    ValidateToken secretKey (GenerateToken secretKey expiresIn now userID email role) now
      = .ok { userID := userID, email := email, role := role,
              expiresAt := now + expiresIn, issuedAt := now, notBefore := now } := by
  have hexp : ¬ (now + expiresIn ≤ now) := by omega
  simp [GenerateToken, ValidateToken, hs256Sign, hexp]

/-- Witness for C2 at a concrete issuance. -/
theorem validate_after_issue_witness :
    0 < 3600 ∧
    ValidateToken "top-secret"
        (GenerateToken "top-secret" 3600 1000 "u-1" "a@example.com" "admin") 1000
      = .ok { userID := "u-1", email := "a@example.com", role := "admin",
              expiresAt := 1000 + 3600, issuedAt := 1000, notBefore := 1000 } :=
  ⟨by decide, validate_after_issue "top-secret" 3600 1000 "u-1" "a@example.com" "admin" (by decide)⟩

/-- C3: validation fails with the expired-token error exactly when the
signature is valid but the expiry instant has passed; every other
failure (malformed token, signature mismatch, violated not-before)
yields the distinct invalid-token error; the two error values are
distinguishable. -/
theorem validateToken_error_classification (secretKey : String) (t : JwtToken) (now : Nat) :
    (ValidateToken secretKey t now = .error .expiredToken ↔
      ∃ claims mac, t = .signed claims mac ∧ mac = hs256Sign secretKey claims ∧
        claims.expiresAt ≤ now) ∧
    (ValidateToken secretKey t now = .error .invalidToken ↔
      ¬(∃ claims mac, t = .signed claims mac ∧ mac = hs256Sign secretKey claims ∧
          claims.expiresAt ≤ now) ∧
      ¬(∃ claims mac, t = .signed claims mac ∧ mac = hs256Sign secretKey claims ∧
          now < claims.expiresAt ∧ claims.notBefore ≤ now)) ∧
    JwtError.expiredToken ≠ JwtError.invalidToken := by
  refine ⟨?_, ?_, by simp⟩
  · cases t with
    | malformed raw => simp [ValidateToken]
    | signed c m =>
      by_cases hm : m = hs256Sign secretKey c
      · subst hm
        by_cases hexp : c.expiresAt ≤ now
        · simp [ValidateToken, hexp]
          exact ⟨c, hs256Sign secretKey c, ⟨rfl, rfl⟩, rfl, hexp⟩
        · by_cases hnbf : now < c.notBefore
          · simp [ValidateToken, hexp, hnbf]
            omega
          · simp [ValidateToken, hexp, hnbf]
            omega
      · simp [ValidateToken, hm]
  · cases t with
    | malformed raw => simp [ValidateToken]
    | signed c m =>
      by_cases hm : m = hs256Sign secretKey c
      · subst hm
        by_cases hexp : c.expiresAt ≤ now
        · simp [ValidateToken, hexp]
        · by_cases hnbf : now < c.notBefore
          · simp [ValidateToken, hexp, hnbf]
            omega
          · simp [ValidateToken, hexp, hnbf]
      · simp [ValidateToken, hm]

/-- C4: authentication maps a missing account and an active account with
a mismatching password to the same invalid-password error, rejects a
deactivated account with the distinct deactivated error before the
password comparison (so even a correct password yields the deactivated
error), and on success returns the account together with a token issued
with the account id, email and role. -/
theorem authenticateUser_spec (repo : List User) (secretKey : String) (expiresIn now : Nat)
    (email password : String) :
    (GetByEmail repo email = none →
      AuthenticateUser repo secretKey expiresIn now email password = .error .invalidPassword) ∧
    (∀ u, GetByEmail repo email = some u → u.isActive = false →
      AuthenticateUser repo secretKey expiresIn now email password = .error .userDeactivated) ∧
    (∀ u, GetByEmail repo email = some u → u.isActive = true → u.CheckPassword password = false →
      AuthenticateUser repo secretKey expiresIn now email password = .error .invalidPassword) ∧
    (∀ u, GetByEmail repo email = some u → u.isActive = true → u.CheckPassword password = true →
      AuthenticateUser repo secretKey expiresIn now email password =
        .ok { user := u,
              token := GenerateToken secretKey expiresIn now u.id u.email u.role }) := by
  refine ⟨?_, ?_, ?_, ?_⟩ <;> intros <;>
    simp_all [AuthenticateUser, User.IsActiveUser]

/-- An active demo account whose stored hash is the bcrypt hash of the
password secret1. -/
def wUserActive : User :=
  { id := "id-1", email := "alice@example.com",
    password := .hash { cost := 10, salt := 1, key := "secret1" },
    name := "Alice", role := "user", isActive := true, createdAt := 0, updatedAt := 0 }

/-- The same account deactivated, under a different email. -/
def wUserInactive : User :=
  { wUserActive with email := "bob@example.com", isActive := false }

/-- Witness for C4: a deactivated account is rejected as deactivated even
with the correct password, and an unknown email is rejected with the
same error as a wrong password. -/
theorem authenticateUser_spec_witness :
    AuthenticateUser [wUserInactive] "s" 60 5 "bob@example.com" "secret1"
      = .error .userDeactivated ∧
    AuthenticateUser [] "s" 60 5 "nobody@example.com" "x" = .error .invalidPassword :=
  ⟨(authenticateUser_spec [wUserInactive] "s" 60 5 "bob@example.com" "secret1").2.1
      wUserInactive (by decide) (by decide),
   (authenticateUser_spec [] "s" 60 5 "nobody@example.com" "x").1 (by decide)⟩

/-- C6: hashing a password of at least 6 bytes succeeds, the stored hash
verifies against the same password, and fails against every other
password (the key derivation is idealized as injective). -/
theorem setPassword_checkPassword_roundtrip (u : User) (p1 p2 : String) (salt : Nat)
    (hlen : 6 ≤ p2.utf8ByteSize) :
    ∃ w, u.SetPassword p2 salt = .ok w ∧ w.CheckPassword p2 = true ∧
      (p1 ≠ p2 → w.CheckPassword p1 = false) := by
  have hne : p2 ≠ "" := by
    intro h
    subst h
    exact absurd hlen (by decide)
  have h1 : (p2 == "") = false := beq_eq_false_iff_ne.mpr hne
  have h2 : ¬ (p2.utf8ByteSize < 6) := by omega
  refine ⟨{ u with password := .hash { cost := bcryptDefaultCost, salt := salt, key := p2 } },
          ?_, ?_, ?_⟩
  · simp [User.SetPassword, h1, h2, bcryptGenerateFromPassword]
  · simp [User.CheckPassword, bcryptCompareHashAndPassword]
  · intro h12
    have hk : (p2 == p1) = false := beq_eq_false_iff_ne.mpr (fun h => h12 h.symm)
    simp [User.CheckPassword, bcryptCompareHashAndPassword, hk]

/-- Witness for C6 at a concrete password pair. -/
theorem setPassword_checkPassword_roundtrip_witness :
    6 ≤ ("password123" : String).utf8ByteSize ∧
    ∃ w, wUserActive.SetPassword "password123" 3 = .ok w ∧
      w.CheckPassword "password123" = true ∧
      ("wrong1" ≠ "password123" → w.CheckPassword "wrong1" = false) :=
  ⟨by decide, setPassword_checkPassword_roundtrip wUserActive "wrong1" "password123" 3 (by decide)⟩

/-- An active account whose stored password value is malformed (a raw
plaintext string instead of a bcrypt encoding). -/
def corruptUser : User :=
  { id := "id-9", email := "carol@example.com", password := .raw "segredo123",
    name := "Carol", role := "user", isActive := true, createdAt := 0, updatedAt := 0 }

/-- Counterexample to C5: on a malformed stored hash, CheckPassword
returns false instead of signaling a distinct corrupt-record error (no
such error value exists in the code), and the failure surfaces through
authentication as the invalid-password error mapped to 401 — a
credentials problem, not a 500-class internal error. The supplied
password here even equals the raw stored string. -/
theorem corrupt_hash_no_error_counterexample :
    corruptUser.CheckPassword "segredo123" = false ∧
    AuthenticateUser [corruptUser] "s" 60 0 "carol@example.com" "segredo123"
      = .error .invalidPassword ∧
    mapErrorToHTTPStatus .invalidPassword = (401, "Invalid password") :=
  ⟨rfl, rfl, rfl⟩

/-- C5 amended: Verify returns false on any mismatched password and also
returns false — not an error — on a malformed stored hash; a malformed
stored hash therefore surfaces through authentication as the generic
invalid-password error with status 401, never as an internal error. -/
theorem checkPassword_mismatch_and_corrupt (u : User) (pw secretKey : String)
    (expiresIn now : Nat) :
    (∀ h, u.password = .hash h → h.key ≠ pw → u.CheckPassword pw = false) ∧
    (∀ raw, u.password = .raw raw → u.CheckPassword pw = false) ∧
    (∀ raw, u.password = .raw raw → u.isActive = true →
      AuthenticateUser [u] secretKey expiresIn now u.email pw = .error .invalidPassword ∧
      mapErrorToHTTPStatus .invalidPassword = (401, "Invalid password")) := by
  refine ⟨?_, ?_, ?_⟩
  · intro h hp hk
    have : (h.key == pw) = false := beq_eq_false_iff_ne.mpr hk
    simp [User.CheckPassword, bcryptCompareHashAndPassword, hp, this]
  · intro raw hp
    simp [User.CheckPassword, bcryptCompareHashAndPassword, hp]
  · intro raw hp hact
    refine ⟨?_, rfl⟩
    simp [AuthenticateUser, GetByEmail, User.IsActiveUser, hact,
      User.CheckPassword, bcryptCompareHashAndPassword, hp]

/-- Witness for the amended C5 at the corrupt demo account. -/
theorem checkPassword_mismatch_and_corrupt_witness :
    AuthenticateUser [corruptUser] "k" 60 0 corruptUser.email "nope99"
      = .error .invalidPassword ∧
    mapErrorToHTTPStatus .invalidPassword = (401, "Invalid password") :=
  (checkPassword_mismatch_and_corrupt corruptUser "nope99" "k" 60 0).2.2
    "segredo123" rfl rfl

/-- The account the integration test creates before logging in: the
entity NewUser builds for test@example.com with password password123. -/
def loginDemoUser : User :=
  { id := "", email := "test@example.com",
    password := .hash { cost := 10, salt := 7, key := "password123" },
    name := "Test User", role := "user", isActive := true, createdAt := 0, updatedAt := 0 }

/-- C1: the Login handler drops the issued token. At the concrete login
the integration test performs, authentication succeeds and the use case
returns both the user and a freshly issued token, but the handler
serializes only the user entity, so the 200 response body carries no
token field — contradicting the integration test, which asserts the
login response contains a token field. -/
theorem login_response_lacks_token :
    NewUser "test@example.com" "password123" "Test User" "user" 0 7 = .ok loginDemoUser ∧
    AuthenticateUser [loginDemoUser] "test-secret" 86400 0 "test@example.com" "password123"
      = .ok { user := loginDemoUser,
              token := GenerateToken "test-secret" 86400 0 "" "test@example.com" "user" } ∧
    Login [loginDemoUser] "test-secret" 86400 0
        { email := "test@example.com", password := "password123" }
      = (200, userToJson loginDemoUser) ∧
    (userToJson loginDemoUser).hasField "token" = false :=
  ⟨rfl, rfl, rfl, rfl⟩

/-- C7: the auth middleware reaches exactly one terminal outcome per
request (AuthMiddleware is a total function): missing header, malformed
header (wrong piece count or wrong scheme), invalid token, expired
token, or continuation with the identity context populated from the
validated claims. -/
theorem authMiddleware_spec (validate : String → Except JwtError Claims) (authHeader : String) :
    (authHeader = "" →
      AuthMiddleware validate authHeader =
        .reject 401 "Authorization header required" "Token not provided") ∧
    (∀ scheme tok, authHeader ≠ "" → stringsSplit authHeader ' ' = [scheme, tok] →
      scheme ≠ "Bearer" →
      AuthMiddleware validate authHeader =
        .reject 401 "Invalid authorization header format" "Expected format: Bearer <token>") ∧
    (∀ parts, authHeader ≠ "" → stringsSplit authHeader ' ' = parts → parts.length ≠ 2 →
      AuthMiddleware validate authHeader =
        .reject 401 "Invalid authorization header format" "Expected format: Bearer <token>") ∧
    (∀ tok, authHeader ≠ "" → stringsSplit authHeader ' ' = ["Bearer", tok] →
      validate tok = .error .invalidToken →
      AuthMiddleware validate authHeader = .reject 401 "Authentication failed" "Invalid token") ∧
    (∀ tok, authHeader ≠ "" → stringsSplit authHeader ' ' = ["Bearer", tok] →
      validate tok = .error .expiredToken →
      AuthMiddleware validate authHeader = .reject 401 "Authentication failed" "Token expired") ∧
    (∀ tok claims, authHeader ≠ "" → stringsSplit authHeader ' ' = ["Bearer", tok] →
      validate tok = .ok claims →
      AuthMiddleware validate authHeader = .allow claims.userID claims.email claims.role) := by
  refine ⟨?_, ?_, ?_, ?_, ?_, ?_⟩
  · intro h
    subst h
    rfl
  · intro scheme tok hne hsplit hs
    have hb : (authHeader == "") = false := beq_eq_false_iff_ne.mpr hne
    simp [AuthMiddleware, hb, hsplit, hs]
  · intro parts hne hsplit hlen
    have hb : (authHeader == "") = false := beq_eq_false_iff_ne.mpr hne
    rcases parts with _ | ⟨a, _ | ⟨b, _ | ⟨c, rest⟩⟩⟩
    · simp [AuthMiddleware, hb, hsplit]
    · simp [AuthMiddleware, hb, hsplit]
    · simp at hlen
    · simp [AuthMiddleware, hb, hsplit]
  · intro tok hne hsplit hv
    have hb : (authHeader == "") = false := beq_eq_false_iff_ne.mpr hne
    simp [AuthMiddleware, hb, hsplit, hv]
  · intro tok hne hsplit hv
    have hb : (authHeader == "") = false := beq_eq_false_iff_ne.mpr hne
    simp [AuthMiddleware, hb, hsplit, hv]
  · intro tok claims hne hsplit hv
    have hb : (authHeader == "") = false := beq_eq_false_iff_ne.mpr hne
    simp [AuthMiddleware, hb, hsplit, hv]

/-- Concrete claims for exercising the middleware. -/
def demoClaims : Claims :=
  { userID := "u-7", email := "eve@example.com", role := "user",
    expiresAt := 100, issuedAt := 0, notBefore := 0 }

/-- A concrete token validator in the shape of the JWTService interface:
one accepted token, one expired token, everything else invalid. -/
def demoValidate (s : String) : Except JwtError Claims :=
  if s == "good" then .ok demoClaims
  else if s == "old" then .error .expiredToken
  else .error .invalidToken

/-- Witness for C7 across the five terminal outcomes. -/
theorem authMiddleware_spec_witness :
    AuthMiddleware demoValidate "" =
      .reject 401 "Authorization header required" "Token not provided" ∧
    AuthMiddleware demoValidate "Bearer good" = .allow "u-7" "eve@example.com" "user" ∧
    AuthMiddleware demoValidate "Bearer old" =
      .reject 401 "Authentication failed" "Token expired" ∧
    AuthMiddleware demoValidate "Bearer bad" =
      .reject 401 "Authentication failed" "Invalid token" ∧
    AuthMiddleware demoValidate "Token abc" =
      .reject 401 "Invalid authorization header format" "Expected format: Bearer <token>" :=
  ⟨(authMiddleware_spec demoValidate "").1 rfl,
   (authMiddleware_spec demoValidate "Bearer good").2.2.2.2.2 "good" demoClaims
     (by decide) (by decide) rfl,
   (authMiddleware_spec demoValidate "Bearer old").2.2.2.2.1 "old"
     (by decide) (by decide) rfl,
   (authMiddleware_spec demoValidate "Bearer bad").2.2.2.1 "bad"
     (by decide) (by decide) rfl,
   (authMiddleware_spec demoValidate "Token abc").2.1 "Token" "abc"
     (by decide) (by decide) (by decide)⟩

/-- C8: the role gate rejects 403 with the insufficient-permissions
message exactly when the identity context is populated with a role that
is not a member of the required set, rejects 401 (authentication
missing) when the identity context is absent, and continues when the
role is a member. -/
theorem roleMiddleware_spec (requiredRoles : List String) (role : String) :
    RoleMiddleware requiredRoles none =
      .reject 401 "User role not found" "Authentication required" ∧
    (requiredRoles.contains role = true →
      RoleMiddleware requiredRoles (some role) = .next) ∧
    (requiredRoles.contains role = false →
      RoleMiddleware requiredRoles (some role) =
        .reject 403 "Insufficient permissions"
          "You don\x27t have permission to access this resource") := by
  refine ⟨rfl, ?_, ?_⟩ <;> intro h <;> simp only [RoleMiddleware] <;> rw [h] <;> simp

/-- Witness for C8: an admin-only gate admits an admin and rejects a
plain user with 403. -/
theorem roleMiddleware_spec_witness :
    RoleMiddleware ["admin"] none =
      .reject 401 "User role not found" "Authentication required" ∧
    RoleMiddleware ["admin"] (some "admin") = .next ∧
    RoleMiddleware ["admin"] (some "user") =
      .reject 403 "Insufficient permissions"
        "You don\x27t have permission to access this resource" :=
  ⟨(roleMiddleware_spec ["admin"] "guest").1,
   (roleMiddleware_spec ["admin"] "admin").2.1 (by decide),
   (roleMiddleware_spec ["admin"] "user").2.2 (by decide)⟩

/-- Auxiliary: looking up by email commutes with replacing stored
password hashes, because the replacement preserves the email. -/
theorem getByEmail_map_withPassword (repo : List User) (f : User → PasswordField)
    (email : String) :
    GetByEmail (repo.map (fun v => withPassword v (f v))) email =
      (GetByEmail repo email).map (fun v => withPassword v (f v)) := by
  induction repo with
  | nil => rfl
  | cons u rest ih =>
    by_cases h : (u.email == email) = true
    · simp [GetByEmail, List.find?_cons, withPassword, h]
    · simp only [List.map_cons]
      unfold GetByEmail at ih ⊢
      rw [List.find?_cons, List.find?_cons]
      have h2 : ((withPassword u (f u)).email == email) = false := by
        simpa [withPassword] using h
      have h3 : (u.email == email) = false := by simpa using h
      rw [h2, h3]
      simpa using ih

/-- C9: the stored password hash never reaches a response body. The JSON
serialization of the user entity is invariant under replacing the hash
(the password field carries the dash tag and is skipped), hence the 200
bodies of the read, create, update and login handlers — all of which
serialize the entity with this function — are too; for the read
operations the full response, status and body, is invariant under
replacing every stored hash in the store. -/
theorem password_hash_not_serialized (u : User) (p : PasswordField) (repo : List User)
    (f : User → PasswordField) (email : String) (offset limit : Int) :
    userToJson (withPassword u p) = userToJson u ∧
    GetUserByEmailHandler (repo.map (fun v => withPassword v (f v))) email =
      GetUserByEmailHandler repo email ∧
    listUsersBody (ListUsersUC (repo.map (fun v => withPassword v (f v))) offset limit).1
        (ListUsersUC (repo.map (fun v => withPassword v (f v))) offset limit).2 =
      listUsersBody (ListUsersUC repo offset limit).1 (ListUsersUC repo offset limit).2 := by
  refine ⟨rfl, ?_, ?_⟩
  · unfold GetUserByEmailHandler GetUserByEmailUC
    rw [getByEmail_map_withPassword]
    cases hg : GetByEmail repo email with
    | none => simp
    | some v => simp [withPassword, userToJson]
  · unfold ListUsersUC listUsersBody
    simp only [List.length_map]
    rw [← List.map_drop, ← List.map_take, List.map_map]
    rfl

/-- Auxiliary: the entity a successful NewUser returns carries the given
email, name and role, the bcrypt hash of the given password, an active
flag set to true, and both timestamps at the current instant. -/
theorem newUser_ok_shape (email password name : String) (role : Role) (now salt : Nat)
    (w : User) (h : NewUser email password name role now salt = .ok w) :
    w = { id := "", email := email,
          password := .hash { cost := bcryptDefaultCost, salt := salt, key := password },
          name := name, role := role, isActive := true,
          createdAt := now, updatedAt := now } := by
  by_cases h0 : password = ""
  · simp [NewUser, User.SetPassword, h0, bind, Except.bind] at h
  by_cases h6 : password.utf8ByteSize < 6
  · simp [NewUser, User.SetPassword, h0, h6, bind, Except.bind] at h
  by_cases he : email = ""
  · simp [NewUser, User.SetPassword, User.Validate, h0, h6, he, bind, Except.bind,
      bcryptGenerateFromPassword, PasswordField.isEmptyString] at h
  by_cases hnm : name = ""
  · simp [NewUser, User.SetPassword, User.Validate, h0, h6, he, hnm, bind, Except.bind,
      bcryptGenerateFromPassword, PasswordField.isEmptyString] at h
  by_cases hr : isValidRole role
  · simp [NewUser, User.SetPassword, User.Validate, h0, h6, he, hnm, hr, bind, Except.bind,
      bcryptGenerateFromPassword, PasswordField.isEmptyString] at h
    exact h.symm
  · simp [NewUser, User.SetPassword, User.Validate, h0, h6, he, hnm, hr, bind, Except.bind,
      bcryptGenerateFromPassword, PasswordField.isEmptyString] at h

/-- C10: whenever account creation succeeds, the created account has its
active flag set to true, and authenticating against the updated store
with the registration credentials immediately succeeds — no separate
activation step is needed. -/
theorem createUser_active_and_authenticable (repo repo2 : List User)
    (now salt expiresIn : Nat) (secretKey email password name : String) (role : Role)
    (u : User)
    (h : CreateUser repo now salt email password name role = .ok (repo2, u)) :
    u.isActive = true ∧
    AuthenticateUser repo2 secretKey expiresIn now email password =
      .ok { user := u,
            token := GenerateToken secretKey expiresIn now u.id u.email u.role } := by
  unfold CreateUser at h
  cases hex : ExistsByEmail repo email with
  | true => rw [hex] at h; simp at h
  | false =>
    rw [hex] at h
    simp only [Bool.false_eq_true, if_false] at h
    cases hn : NewUser email password name role now salt with
    | error e => rw [hn] at h; simp at h
    | ok w =>
      rw [hn] at h
      simp only [Except.ok.injEq, Prod.mk.injEq] at h
      obtain ⟨hrepo2, hu⟩ := h
      subst hrepo2
      subst hu
      have hw := newUser_ok_shape email password name role now salt w hn
      subst hw
      have hnone : GetByEmail repo email = none := by
        unfold GetByEmail
        apply List.find?_eq_none.2
        intro v hv
        unfold ExistsByEmail at hex
        have := by simpa using hex
        simpa using this v hv
      refine ⟨rfl, ?_⟩
      unfold AuthenticateUser GetByEmail
      unfold GetByEmail at hnone
      rw [List.find?_append, hnone]
      simp [User.IsActiveUser, User.CheckPassword, bcryptCompareHashAndPassword]

/-- The account a concrete successful registration creates. -/
def newlyCreated : User :=
  { id := "", email := "new@example.com",
    password := .hash { cost := 10, salt := 3, key := "secret1" },
    name := "Nina", role := "user", isActive := true, createdAt := 0, updatedAt := 0 }

/-- Witness for C10 at a concrete registration followed by a login. -/
theorem createUser_active_and_authenticable_witness :
    newlyCreated.isActive = true ∧
    AuthenticateUser [newlyCreated] "s" 3600 0 "new@example.com" "secret1" =
      .ok { user := newlyCreated,
            token := GenerateToken "s" 3600 0 newlyCreated.id newlyCreated.email
                       newlyCreated.role } :=
  createUser_active_and_authenticable [] [newlyCreated] 0 3 3600 "s"
    "new@example.com" "secret1" "Nina" "user" newlyCreated (by rfl)

end GoApi
